import Mathlib

/-! # libcassandra: `Keyspace` (src/libcassandra/keyspace.cc)

A shallow embedding of the `Keyspace` class.  The thrift structures are
records, `std::map` is a key-ordered association list, `std::vector` is a
`List`, a C++ exception is the `Except.error` component of a result, and the
mutable members of the object (`keyspace_desc`) together with the wrapped
remote client are passed explicitly: every method returns its result, the
`Keyspace` after the call and the `World` (remote state and the log of remote
calls) after the call.
-/

namespace libcassandra

/-! ## `std::map<std::string, V>` -/

/-- A `std::map` keyed by `std::string`: its entries in iteration order. -/
abbrev StdMap (α : Type) := List (String × α)

namespace StdMap

/-- The comparison of `std::string::compare` on the characters of two
strings: lexicographic, a proper initial segment comes first. -/
def lessChars : List Char → List Char → Bool
  | _, [] => false
  | [], _ :: _ => true
  | a :: as, b :: bs =>
    if a.toNat < b.toNat then true
    else if b.toNat < a.toNat then false
    else lessChars as bs

/-- The key order of the map, `std::less<std::string>`. -/
def less (a b : String) : Bool := lessChars a.data b.data

/-- The value stored under `k`, as `std::map::find` locates it. -/
def find {α : Type} : StdMap α → String → Option α
  | [], _ => none
  | (k', v') :: rest, k => if k' = k then some v' else find rest k

/-- The map after `std::map::insert(make_pair(k, v))`: the pair is placed at
its position in key order, and an entry already stored under `k` is kept. -/
def insert {α : Type} : StdMap α → String → α → StdMap α
  | [], k, v => [(k, v)]
  | (k', v') :: rest, k, v =>
    if less k k' then (k, v) :: (k', v') :: rest
    else if less k' k then (k', v') :: insert rest k v
    else (k', v') :: rest

/-- The value and the map after `std::map::operator[]`: the value stored under
`k`, or a value-initialised one (`dflt`) that is inserted under `k` when the
key is absent. -/
def index {α : Type} (m : StdMap α) (k : String) (dflt : α) : α × StdMap α :=
  match find m k with
  | some v => (v, m)
  | none => (dflt, insert m k dflt)

/-- The keys of the map in iteration order. -/
def keys {α : Type} (m : StdMap α) : List String := m.map Prod.fst

end StdMap

/-! ## Thrift structures used by `Keyspace` -/

/-- Modelled from the spec: the thrift-generated enum `ConsistencyLevel`
(libgenthrift, not part of the sources at hand); this layer only stores the
value and forwards it unchanged. -/
structure ConsistencyLevel where
  value : Int
  deriving DecidableEq, Repr

/-- Modelled from the spec: the thrift-generated struct `Column`
(libgenthrift): name, value, write timestamp and time-to-live. -/
structure Column where
  name : String
  value : String
  timestamp : Int
  ttl : Int
  deriving DecidableEq, Repr

/-- Modelled from the spec: the thrift-generated struct `SuperColumn`
(libgenthrift): a name and an ordered collection of columns. -/
structure SuperColumn where
  name : String
  columns : List Column
  deriving DecidableEq, Repr

/-- Modelled from the spec: the thrift-generated struct
`ColumnOrSuperColumn` (libgenthrift), the element of the heterogeneous result
lists; the source reads its members `column` and `super_column`. -/
structure ColumnOrSuperColumn where
  column : Column
  super_column : SuperColumn
  deriving DecidableEq, Repr

/-- Modelled from the spec: the thrift-generated struct `ColumnParent`
(libgenthrift): column family and optional super column, with the `__isset`
flag the source sets. -/
structure ColumnParent where
  column_family : String
  super_column : String
  isset_super_column : Bool
  deriving DecidableEq, Repr

/-- Modelled from the spec: the thrift-generated struct `ColumnPath`
(libgenthrift): column family, optional super column and optional column, with
the `__isset` flags the source sets. -/
structure ColumnPath where
  column_family : String
  super_column : String
  column : String
  isset_super_column : Bool
  isset_column : Bool
  deriving DecidableEq, Repr

/-- Modelled from the spec: the thrift-generated struct `SlicePredicate`
(libgenthrift): a list of column names or a range of column names, with the
`__isset` flags the source sets. -/
structure SlicePredicate where
  column_names : List String
  range_start : String
  range_finish : String
  range_reversed : Bool
  range_count : Int
  isset_column_names : Bool
  isset_slice_range : Bool
  deriving DecidableEq, Repr

/-- Modelled from the spec: the thrift-generated struct `KeySlice`
(libgenthrift): a row key and that row's heterogeneous result list. -/
structure KeySlice where
  key : String
  columns : List ColumnOrSuperColumn
  deriving DecidableEq, Repr

/-- A value-initialised `Column`, as the generated default constructor and
`std::vector<Column>(n)` produce it. -/
def Column.default : Column := { name := "", value := "", timestamp := 0, ttl := 0 }

/-- A value-initialised `SuperColumn`. -/
def SuperColumn.default : SuperColumn := { name := "", columns := [] }

/-- A default-constructed `ColumnParent`. -/
def ColumnParent.default : ColumnParent :=
  { column_family := "", super_column := "", isset_super_column := false }

/-- A default-constructed `ColumnPath`. -/
def ColumnPath.default : ColumnPath :=
  { column_family := "", super_column := "", column := "",
    isset_super_column := false, isset_column := false }

/-- The exceptions a `Keyspace` method can leave with: the
`InvalidRequestException` this layer throws itself, and whatever else the
wrapped client raises. -/
inductive Exception where
  | InvalidRequestException
  | Other (what : String)
  deriving DecidableEq, Repr

/-! ## The wrapped remote client -/

/-- One call made on `client->getCassandra()`, with the arguments passed. -/
inductive RemoteCall where
  | insert (keyspace key : String) (column_parent : ColumnParent) (column : Column)
      (level : ConsistencyLevel)
  | remove (keyspace key : String) (column_path : ColumnPath) (timestamp : Int)
      (level : ConsistencyLevel)
  | get (keyspace key : String) (column_path : ColumnPath) (level : ConsistencyLevel)
  | get_slice (keyspace key : String) (column_parent : ColumnParent)
      (predicate : SlicePredicate) (level : ConsistencyLevel)
  | get_range_slice (keyspace : String) (column_parent : ColumnParent)
      (predicate : SlicePredicate) (start_key finish_key : String) (row_count : Int)
      (level : ConsistencyLevel)
  | get_count (keyspace key : String) (column_parent : ColumnParent)
      (level : ConsistencyLevel)
  deriving DecidableEq, Repr

/-- Modelled from the spec: the remote procedure client behind
`client->getCassandra()` (thrift-generated, external to this layer).  It is a
parameter of the model: each procedure maps the remote state `σ` and the
arguments to a response (a value or an exception) and the next remote state. -/
structure CassandraClient (σ : Type) where
  insert : σ → String → String → ColumnParent → Column → ConsistencyLevel →
    Except Exception Unit × σ
  remove : σ → String → String → ColumnPath → Int → ConsistencyLevel →
    Except Exception Unit × σ
  get : σ → String → String → ColumnPath → ConsistencyLevel →
    Except Exception ColumnOrSuperColumn × σ
  get_slice : σ → String → String → ColumnParent → SlicePredicate → ConsistencyLevel →
    Except Exception (List ColumnOrSuperColumn) × σ
  get_range_slice : σ → String → ColumnParent → SlicePredicate → String → String → Int →
    ConsistencyLevel → Except Exception (List KeySlice) × σ
  get_count : σ → String → String → ColumnParent → ConsistencyLevel →
    Except Exception Int × σ

/-- What lies outside the `Keyspace` object: the state of the remote store and
the calls made on the remote client so far, oldest first. -/
structure World (σ : Type) where
  remote : σ
  calls : List RemoteCall

/-- The wall clock as `gettimeofday` reports it. -/
structure Timeval where
  tv_sec : Int
  tv_usec : Int
  deriving DecidableEq, Repr

/-! ## `Keyspace` -/

/-- The members of `Keyspace`. -/
structure Keyspace (σ : Type) where
  client : CassandraClient σ
  name : String
  keyspace_desc : StdMap (StdMap String)
  level : ConsistencyLevel

/-- The outcome of a method call: the value returned or the exception thrown,
the object after the call and the world after the call. -/
structure Outcome (σ : Type) (α : Type) where
  result : Except Exception α
  ks : Keyspace σ
  world : World σ

namespace Keyspace

variable {σ : Type}

/-- The constructor `Keyspace::Keyspace`. -/
def construct (in_client : CassandraClient σ) (in_name : String)
    (in_desc : StdMap (StdMap String)) (in_level : ConsistencyLevel) : Keyspace σ :=
  { client := in_client, name := in_name, keyspace_desc := in_desc, level := in_level }

/-- `Keyspace::getName`. -/
def getName (ks : Keyspace σ) : String := ks.name

/-- `Keyspace::getConsistencyLevel`. -/
def getConsistencyLevel (ks : Keyspace σ) : ConsistencyLevel := ks.level

/-- `Keyspace::getDescription`. -/
def getDescription (ks : Keyspace σ) : StdMap (StdMap String) := ks.keyspace_desc

/-- `Keyspace::createTimestamp`, from the clock value `gettimeofday` stored. -/
def createTimestamp (tv : Timeval) : Int := tv.tv_sec * 1000000 + tv.tv_usec

/-- `Keyspace::validateColumnPath`: the exception thrown (or `ok`) and the
object after the call (`keyspace_desc[...]` may insert an entry). -/
def validateColumnPath (ks : Keyspace σ) (col_path : ColumnPath) :
    Except Exception Unit × Keyspace σ :=
  let r := StdMap.index ks.keyspace_desc col_path.column_family []
  let cf_define := r.1
  let ks' := { ks with keyspace_desc := r.2 }
  if cf_define = [] then
    (.error .InvalidRequestException, ks')
  else
    let type := (StdMap.index cf_define "Type" "").1
    if type = "Standard" then
      if col_path.column ≠ "" then (.ok (), ks')
      else (.error .InvalidRequestException, ks')
    else if type = "Super" then
      if col_path.super_column ≠ "" then (.ok (), ks')
      else (.error .InvalidRequestException, ks')
    else (.error .InvalidRequestException, ks')

/-- `Keyspace::validateColumnParent`. -/
def validateColumnParent (ks : Keyspace σ) (col_parent : ColumnParent) :
    Except Exception Unit × Keyspace σ :=
  let r := StdMap.index ks.keyspace_desc col_parent.column_family []
  let cf_define := r.1
  let ks' := { ks with keyspace_desc := r.2 }
  if cf_define = [] then
    (.error .InvalidRequestException, ks')
  else
    let type := (StdMap.index cf_define "Type" "").1
    if type = "Standard" then (.ok (), ks')
    else if type = "Super" then
      if col_parent.super_column ≠ "" then (.ok (), ks')
      else (.error .InvalidRequestException, ks')
    else (.error .InvalidRequestException, ks')

/-- `Keyspace::validateSuperColumnPath`. -/
def validateSuperColumnPath (ks : Keyspace σ) (col_path : ColumnPath) :
    Except Exception Unit × Keyspace σ :=
  let r := StdMap.index ks.keyspace_desc col_path.column_family []
  let cf_define := r.1
  let ks' := { ks with keyspace_desc := r.2 }
  if cf_define = [] then
    (.error .InvalidRequestException, ks')
  else
    let type := (StdMap.index cf_define "Type" "").1
    if type = "Super" then
      if col_path.super_column ≠ "" then (.ok (), ks')
      else (.error .InvalidRequestException, ks')
    else (.error .InvalidRequestException, ks')

/-- The body shared by the methods: after a validation that passed or threw,
either leave with the exception (no remote call is made) or go on. -/
def afterValidation {α : Type} (w : World σ) (v : Except Exception Unit × Keyspace σ)
    (next : Keyspace σ → Outcome σ α) : Outcome σ α :=
  match v.1 with
  | .error e => { result := .error e, ks := v.2, world := w }
  | .ok _ => next v.2

/-- The world after one remote procedure was called and left the remote state
`remote`. -/
def called (w : World σ) (c : RemoteCall) (remote : σ) : World σ :=
  { remote := remote, calls := w.calls ++ [c] }

/-- The `ColumnParent` built by `Keyspace::insertColumn` (six arguments). -/
def insertColumnParent (column_family super_column_name : String) : ColumnParent :=
  let col_parent0 : ColumnParent := { ColumnParent.default with column_family := column_family }
  if super_column_name ≠ "" then
    { col_parent0 with super_column := super_column_name, isset_super_column := true }
  else col_parent0

/-- `Keyspace::insertColumn` (six arguments); `tv` is the clock value read by
`createTimestamp`. -/
def insertColumn (ks : Keyspace σ) (w : World σ) (tv : Timeval)
    (key column_family super_column_name column_name value : String) (ttl : Int) :
    Outcome σ Unit :=
  let col_parent := insertColumnParent column_family super_column_name
  let column : Column :=
    { name := column_name, value := value, timestamp := createTimestamp tv, ttl := ttl }
  afterValidation w (validateColumnParent ks col_parent) fun ks' =>
    let r := ks'.client.insert w.remote ks'.name key col_parent column ks'.level
    { result := r.1, ks := ks',
      world := called w (.insert ks'.name key col_parent column ks'.level) r.2 }

/-- `Keyspace::insertColumn` (four arguments).  The time-to-live it passes on
is the default argument declared in keyspace.h, taken here as `default_ttl`. -/
def insertColumn4 (ks : Keyspace σ) (w : World σ) (tv : Timeval) (default_ttl : Int)
    (key column_family column_name value : String) : Outcome σ Unit :=
  insertColumn ks w tv key column_family "" column_name value default_ttl

/-- `Keyspace::remove(key, col_path)`. -/
def remove (ks : Keyspace σ) (w : World σ) (tv : Timeval) (key : String)
    (col_path : ColumnPath) : Outcome σ Unit :=
  afterValidation w (validateColumnPath ks col_path) fun ks' =>
    let r := ks'.client.remove w.remote ks'.name key col_path (createTimestamp tv) ks'.level
    { result := r.1, ks := ks',
      world := called w (.remove ks'.name key col_path (createTimestamp tv) ks'.level) r.2 }

/-- The `ColumnPath` that `Keyspace::remove(key, column_family,
super_column_name, column_name)` builds before it calls `remove(key,
col_path)`.  Both branches assign to `col_path.column`, as the source does. -/
def removePath (column_family super_column_name column_name : String) : ColumnPath :=
  let p0 : ColumnPath := { ColumnPath.default with column_family := column_family }
  let p1 : ColumnPath :=
    if super_column_name ≠ "" then
      { p0 with column := super_column_name, isset_super_column := true }
    else p0
  if column_name ≠ "" then
    { p1 with column := column_name, isset_column := true }
  else p1

/-- `Keyspace::remove(key, column_family, super_column_name, column_name)`. -/
def removeStr (ks : Keyspace σ) (w : World σ) (tv : Timeval)
    (key column_family super_column_name column_name : String) : Outcome σ Unit :=
  remove ks w tv key (removePath column_family super_column_name column_name)

/-- `Keyspace::removeColumn`. -/
def removeColumn (ks : Keyspace σ) (w : World σ) (tv : Timeval)
    (key column_family super_column_name column_name : String) : Outcome σ Unit :=
  removeStr ks w tv key column_family super_column_name column_name

/-- `Keyspace::removeSuperColumn`. -/
def removeSuperColumn (ks : Keyspace σ) (w : World σ) (tv : Timeval)
    (key column_family super_column_name : String) : Outcome σ Unit :=
  removeStr ks w tv key column_family super_column_name ""

/-- The `ColumnPath` built by `Keyspace::getColumn` (four arguments). -/
def getColumnPath (column_family super_column_name column_name : String) : ColumnPath :=
  let p0 : ColumnPath := { ColumnPath.default with column_family := column_family }
  let p1 : ColumnPath :=
    if super_column_name ≠ "" then
      { p0 with super_column := super_column_name, isset_super_column := true }
    else p0
  { p1 with column := column_name, isset_column := true }

/-- `Keyspace::getColumn` (four arguments). -/
def getColumn (ks : Keyspace σ) (w : World σ)
    (key column_family super_column_name column_name : String) : Outcome σ Column :=
  let col_path := getColumnPath column_family super_column_name column_name
  afterValidation w (validateColumnPath ks col_path) fun ks' =>
    let r := ks'.client.get w.remote ks'.name key col_path ks'.level
    let w' := called w (.get ks'.name key col_path ks'.level) r.2
    match r.1 with
    | .error e => { result := .error e, ks := ks', world := w' }
    | .ok cosc =>
      if cosc.column.name = "" then
        { result := .error .InvalidRequestException, ks := ks', world := w' }
      else { result := .ok cosc.column, ks := ks', world := w' }

/-- `Keyspace::getColumn` (three arguments). -/
def getColumn3 (ks : Keyspace σ) (w : World σ) (key column_family column_name : String) :
    Outcome σ Column :=
  getColumn ks w key column_family "" column_name

/-- `Keyspace::getColumnValue` (four arguments). -/
def getColumnValue (ks : Keyspace σ) (w : World σ)
    (key column_family super_column_name column_name : String) : Outcome σ String :=
  let o := getColumn ks w key column_family super_column_name column_name
  { result := o.result.map Column.value, ks := o.ks, world := o.world }

/-- `Keyspace::getColumnValue` (three arguments). -/
def getColumnValue3 (ks : Keyspace σ) (w : World σ) (key column_family column_name : String) :
    Outcome σ String :=
  let o := getColumn3 ks w key column_family column_name
  { result := o.result.map Column.value, ks := o.ks, world := o.world }

/-- The `ColumnPath` built by `Keyspace::getSuperColumn`. -/
def getSuperColumnPath (column_family super_column_name : String) : ColumnPath :=
  { ColumnPath.default with
    column_family := column_family, super_column := super_column_name,
    isset_super_column := true }

/-- `Keyspace::getSuperColumn`. -/
def getSuperColumn (ks : Keyspace σ) (w : World σ)
    (key column_family super_column_name : String) : Outcome σ SuperColumn :=
  let col_path := getSuperColumnPath column_family super_column_name
  afterValidation w (validateSuperColumnPath ks col_path) fun ks' =>
    let r := ks'.client.get w.remote ks'.name key col_path ks'.level
    let w' := called w (.get ks'.name key col_path ks'.level) r.2
    match r.1 with
    | .error e => { result := .error e, ks := ks', world := w' }
    | .ok cosc =>
      if cosc.super_column.name = "" then
        { result := .error .InvalidRequestException, ks := ks', world := w' }
      else { result := .ok cosc.super_column, ks := ks', world := w' }

/-- The loop of `getSliceNames` and `getSliceRange`: every element whose
`column.name` is not empty has its `column` pushed to the back of `result`. -/
def sliceLoop (ret_cosc : List ColumnOrSuperColumn) : List Column :=
  ret_cosc.foldl
    (fun result it => if it.column.name ≠ "" then result ++ [it.column] else result) []

/-- `Keyspace::getSliceNames`; the predicate passed on is the caller's with
`__isset.column_names` set. -/
def getSliceNames (ks : Keyspace σ) (w : World σ) (key : String)
    (col_parent : ColumnParent) (pred : SlicePredicate) : Outcome σ (List Column) :=
  let pred' := { pred with isset_column_names := true }
  let r := ks.client.get_slice w.remote ks.name key col_parent pred' ks.level
  let w' := called w (.get_slice ks.name key col_parent pred' ks.level) r.2
  match r.1 with
  | .error e => { result := .error e, ks := ks, world := w' }
  | .ok ret_cosc => { result := .ok (sliceLoop ret_cosc), ks := ks, world := w' }

/-- `Keyspace::getSliceRange`; the predicate passed on is the caller's with
`__isset.slice_range` set. -/
def getSliceRange (ks : Keyspace σ) (w : World σ) (key : String)
    (col_parent : ColumnParent) (pred : SlicePredicate) : Outcome σ (List Column) :=
  let pred' := { pred with isset_slice_range := true }
  let r := ks.client.get_slice w.remote ks.name key col_parent pred' ks.level
  let w' := called w (.get_slice ks.name key col_parent pred' ks.level) r.2
  match r.1 with
  | .error e => { result := .error e, ks := ks, world := w' }
  | .ok ret_cosc => { result := .ok (sliceLoop ret_cosc), ks := ks, world := w' }

/-- `Keyspace::getColumnList`: a vector of `cols.size()` value-initialised
columns, then the `column` member of every element pushed to its back. -/
def getColumnList (cols : List ColumnOrSuperColumn) : List Column :=
  cols.foldl (fun ret it => ret ++ [it.column]) (List.replicate cols.length Column.default)

/-- `Keyspace::getSuperColumnList`. -/
def getSuperColumnList (cols : List ColumnOrSuperColumn) : List SuperColumn :=
  cols.foldl (fun ret it => ret ++ [it.super_column])
    (List.replicate cols.length SuperColumn.default)

/-- `Keyspace::getRangeSlice`. -/
def getRangeSlice (ks : Keyspace σ) (w : World σ) (col_parent : ColumnParent)
    (pred : SlicePredicate) (start finish : String) (row_count : Int) :
    Outcome σ (StdMap (List Column)) :=
  let r := ks.client.get_range_slice w.remote ks.name col_parent pred start finish row_count
    ks.level
  let w' := called w
    (.get_range_slice ks.name col_parent pred start finish row_count ks.level) r.2
  match r.1 with
  | .error e => { result := .error e, ks := ks, world := w' }
  | .ok key_slices =>
    let ret : StdMap (List Column) :=
      if key_slices ≠ [] then
        key_slices.foldl (fun ret it => StdMap.insert ret it.key (getColumnList it.columns)) []
      else []
    { result := .ok ret, ks := ks, world := w' }

/-- `Keyspace::getSuperRangeSlice`. -/
def getSuperRangeSlice (ks : Keyspace σ) (w : World σ) (col_parent : ColumnParent)
    (pred : SlicePredicate) (start finish : String) (row_count : Int) :
    Outcome σ (StdMap (List SuperColumn)) :=
  let r := ks.client.get_range_slice w.remote ks.name col_parent pred start finish row_count
    ks.level
  let w' := called w
    (.get_range_slice ks.name col_parent pred start finish row_count ks.level) r.2
  match r.1 with
  | .error e => { result := .error e, ks := ks, world := w' }
  | .ok key_slices =>
    let ret : StdMap (List SuperColumn) :=
      if key_slices ≠ [] then
        key_slices.foldl
          (fun ret it => StdMap.insert ret it.key (getSuperColumnList it.columns)) []
      else []
    { result := .ok ret, ks := ks, world := w' }

/-- `Keyspace::getCount`. -/
def getCount (ks : Keyspace σ) (w : World σ) (key : String) (col_parent : ColumnParent) :
    Outcome σ Int :=
  let r := ks.client.get_count w.remote ks.name key col_parent ks.level
  { result := r.1, ks := ks, world := called w (.get_count ks.name key col_parent ks.level) r.2 }

end Keyspace

/-! ## A concrete remote client for evaluation -/

/-- A remote client without state that answers every call with a fixed
response: `get` with `cosc`, `get_slice` with `slice`, `get_range_slice` with
`rows`, `get_count` with `count`. -/
def fixedClient (cosc : ColumnOrSuperColumn) (slice : List ColumnOrSuperColumn)
    (rows : List KeySlice) (count : Int) : CassandraClient Unit :=
  { insert := fun s _ _ _ _ _ => (.ok (), s)
    remove := fun s _ _ _ _ _ => (.ok (), s)
    get := fun s _ _ _ _ => (.ok cosc, s)
    get_slice := fun s _ _ _ _ _ => (.ok slice, s)
    get_range_slice := fun s _ _ _ _ _ _ _ => (.ok rows, s)
    get_count := fun s _ _ _ _ => (.ok count, s) }

/-- A plain column entry of a result list. -/
def plainEntry (name value : String) : ColumnOrSuperColumn :=
  { column := { name := name, value := value, timestamp := 1, ttl := 0 },
    super_column := SuperColumn.default }

/-- A super-column entry of a result list: its plain-column part is
value-initialised. -/
def superEntry (name : String) : ColumnOrSuperColumn :=
  { column := Column.default, super_column := { name := name, columns := [] } }

/-- The schema of the spec's examples: `CF1` is a Standard family. -/
def schemaStandard : StdMap (StdMap String) := [("CF1", [("Type", "Standard")])]

/-- A schema with one Super family `SCF1`. -/
def schemaSuper : StdMap (StdMap String) := [("SCF1", [("Type", "Super")])]

/-- A keyspace over `fixedClient` with the given schema description. -/
def sampleKeyspace (desc : StdMap (StdMap String)) (cosc : ColumnOrSuperColumn)
    (slice : List ColumnOrSuperColumn) (rows : List KeySlice) : Keyspace Unit :=
  Keyspace.construct (fixedClient cosc slice rows 0) "ks" desc { value := 1 }

/-- A world in which no remote call was made yet. -/
def freshWorld : World Unit := { remote := (), calls := [] }

/-! ## The validation policy in the words of the specification -/

/-- The `"Type"` attribute the schema description declares for a column
family, if the family has an entry and the entry has the attribute. -/
def declaredType (desc : StdMap (StdMap String)) (column_family : String) : Option String :=
  (StdMap.find desc column_family).bind fun attrs => StdMap.find attrs "Type"

/-- Validity of a `ColumnPath` as the validation policy words it: the family
has an entry; a Standard family needs a non-empty column name, a Super family
a non-empty super-column name; any other or missing type is invalid. -/
def specValidPath (desc : StdMap (StdMap String)) (p : ColumnPath) : Bool :=
  match declaredType desc p.column_family with
  | none => false
  | some t =>
    if t = "Standard" then decide (p.column ≠ "")
    else if t = "Super" then decide (p.super_column ≠ "")
    else false

/-- Validity of a `ColumnParent` as the validation policy words it: a
Standard family is always valid, a Super family needs a non-empty super-column
name; an unknown family and any other or missing type are invalid. -/
def specValidParent (desc : StdMap (StdMap String)) (p : ColumnParent) : Bool :=
  match declaredType desc p.column_family with
  | none => false
  | some t =>
    if t = "Standard" then true
    else if t = "Super" then decide (p.super_column ≠ "")
    else false

/-- One call of one of the three validators. -/
inductive ValidationCall where
  | path (col_path : ColumnPath)
  | parent (col_parent : ColumnParent)
  | superPath (col_path : ColumnPath)

/-- The outcome of one validator call. -/
def validate {σ : Type} (ks : Keyspace σ) : ValidationCall → Except Exception Unit × Keyspace σ
  | .path p => ks.validateColumnPath p
  | .parent p => ks.validateColumnParent p
  | .superPath p => ks.validateSuperColumnPath p

/-- The object after a sequence of validator calls, each made on the object
the previous one left (whether it returned or threw). -/
def validateAll {σ : Type} (ks : Keyspace σ) : List ValidationCall → Keyspace σ
  | [] => ks
  | c :: cs => validateAll (validate ks c).2 cs

/-! ## Lemmas on the map model -/

namespace StdMap

theorem lessChars_trichotomy : ∀ (as bs : List Char),
    lessChars as bs = false → lessChars bs as = false → as = bs
  | [], [], _, _ => rfl
  | [], _ :: _, h, _ => by simp [lessChars] at h
  | _ :: _, [], _, h => by simp [lessChars] at h
  | a :: as, b :: bs, h₁, h₂ => by
    by_cases hab : a.toNat < b.toNat
    · simp [lessChars, hab] at h₁
    · by_cases hba : b.toNat < a.toNat
      · simp [lessChars, hba] at h₂
      · simp only [lessChars, hab, hba, if_false] at h₁ h₂
        have hval : a.val = b.val := by
          apply UInt32.ext
          have := Nat.le_antisymm (Nat.not_lt.mp hba) (Nat.not_lt.mp hab)
          simpa [Char.toNat] using this
        rw [Char.ext hval, lessChars_trichotomy as bs h₁ h₂]

theorem less_trichotomy {a b : String} (h₁ : less a b = false) (h₂ : less b a = false) :
    a = b :=
  String.ext (lessChars_trichotomy a.data b.data h₁ h₂)

theorem find_insert_of_ne {α : Type} (m : StdMap α) (k k' : String) (v : α) (h : k ≠ k') :
    find (insert m k v) k' = find m k' := by
  induction m with
  | nil => simp [insert, find, h]
  | cons e rest ih =>
    obtain ⟨ke, ve⟩ := e
    unfold insert
    split
    · simp [find, h]
    · split
      · simp [find, ih]
      · rfl

theorem find_insert_self {α : Type} (m : StdMap α) (k : String) (v : α)
    (h : find m k = none) : find (insert m k v) k = some v := by
  induction m with
  | nil => simp [insert, find]
  | cons e rest ih =>
    obtain ⟨ke, ve⟩ := e
    have hne : ke ≠ k := by
      intro heq
      simp [find, heq] at h
    have hrest : find rest k = none := by
      simpa [find, hne] using h
    unfold insert
    split
    · simp [find]
    · split
      · simp [find, hne, ih hrest]
      · rename_i h₁ h₂
        exact absurd (less_trichotomy (by simpa using h₂) (by simpa using h₁)) hne

theorem index_fst {α : Type} (m : StdMap α) (k : String) (dflt : α) :
    (index m k dflt).1 = (find m k).getD dflt := by
  unfold index
  cases find m k <;> rfl

theorem index_snd_of_some {α : Type} (m : StdMap α) (k : String) (dflt v : α)
    (h : find m k = some v) : (index m k dflt).2 = m := by
  simp [index, h]

theorem find_index_snd {α : Type} (m : StdMap α) (k k' : String) (dflt : α) :
    find (index m k dflt).2 k' =
      if k = k' then some ((find m k).getD dflt) else find m k' := by
  unfold index
  cases hf : find m k with
  | some v =>
    by_cases hk : k = k'
    · subst hk; simp [hf]
    · simp [hk]
  | none =>
    by_cases hk : k = k'
    · subst hk; simp [find_insert_self m k dflt hf]
    · simp [hk, find_insert_of_ne m k k' dflt hk]

end StdMap

/-! ## The validators against the policy -/

section Validators

variable {σ : Type}

/-- The copy `cf_define` and its `"Type"` attribute, read through
`operator[]`, in terms of `declaredType`. -/
theorem type_of_cf_define (desc : StdMap (StdMap String)) (cf : String)
    (h : (StdMap.index desc cf []).1 ≠ []) :
    declaredType desc cf = StdMap.find (StdMap.index desc cf []).1 "Type" := by
  rw [StdMap.index_fst] at h ⊢
  unfold declaredType
  cases hf : StdMap.find desc cf with
  | none => simp [hf] at h
  | some attrs => simp

theorem declaredType_of_cf_define_nil (desc : StdMap (StdMap String)) (cf : String)
    (h : (StdMap.index desc cf []).1 = []) : declaredType desc cf = none := by
  rw [StdMap.index_fst] at h
  unfold declaredType
  cases hf : StdMap.find desc cf with
  | none => rfl
  | some attrs =>
    simp only [hf, Option.getD_some] at h
    simp [h, StdMap.find]

theorem validateColumnPath_result (ks : Keyspace σ) (p : ColumnPath) :
    (ks.validateColumnPath p).1 =
      if specValidPath ks.keyspace_desc p then .ok () else .error .InvalidRequestException := by
  unfold Keyspace.validateColumnPath specValidPath
  by_cases hnil : (StdMap.index ks.keyspace_desc p.column_family []).1 = []
  · simp [hnil, declaredType_of_cf_define_nil _ _ hnil]
  · rw [type_of_cf_define _ _ hnil]
    simp only [hnil, if_false, StdMap.index_fst _ "Type"]
    cases hty : StdMap.find (StdMap.index ks.keyspace_desc p.column_family []).1 "Type" with
    | none => simp
    | some t =>
      simp only [Option.getD_some]
      by_cases h₁ : t = "Standard"
      · by_cases hc : p.column = "" <;> simp [h₁, hc]
      · by_cases h₂ : t = "Super"
        · by_cases hc : p.super_column = "" <;> simp [h₁, h₂, hc]
        · simp [h₁, h₂]

theorem validateColumnParent_result (ks : Keyspace σ) (p : ColumnParent) :
    (ks.validateColumnParent p).1 =
      if specValidParent ks.keyspace_desc p then .ok ()
      else .error .InvalidRequestException := by
  unfold Keyspace.validateColumnParent specValidParent
  by_cases hnil : (StdMap.index ks.keyspace_desc p.column_family []).1 = []
  · simp [hnil, declaredType_of_cf_define_nil _ _ hnil]
  · rw [type_of_cf_define _ _ hnil]
    simp only [hnil, if_false, StdMap.index_fst _ "Type"]
    cases hty : StdMap.find (StdMap.index ks.keyspace_desc p.column_family []).1 "Type" with
    | none => simp
    | some t =>
      simp only [Option.getD_some]
      by_cases h₁ : t = "Standard"
      · simp [h₁]
      · by_cases h₂ : t = "Super"
        · by_cases hc : p.super_column = "" <;> simp [h₁, h₂, hc]
        · simp [h₁, h₂]

theorem validateSuperColumnPath_result (ks : Keyspace σ) (p : ColumnPath) :
    (ks.validateSuperColumnPath p).1 =
      if declaredType ks.keyspace_desc p.column_family = some "Super" ∧ p.super_column ≠ ""
      then .ok () else .error .InvalidRequestException := by
  unfold Keyspace.validateSuperColumnPath
  by_cases hnil : (StdMap.index ks.keyspace_desc p.column_family []).1 = []
  · simp [hnil, declaredType_of_cf_define_nil _ _ hnil]
  · rw [type_of_cf_define _ _ hnil]
    simp only [hnil, if_false, StdMap.index_fst _ "Type"]
    cases hty : StdMap.find (StdMap.index ks.keyspace_desc p.column_family []).1 "Type" with
    | none => simp
    | some t =>
      simp only [Option.getD_some]
      by_cases h₂ : t = "Super"
      · by_cases hc : p.super_column = "" <;> simp [h₂, hc]
      · simp [h₂]

/-- The description after any validator call: `keyspace_desc[column_family]`
ran once on it. -/
theorem validate_desc (ks : Keyspace σ) (c : ValidationCall) :
    ∃ cf, (validate ks c).2.keyspace_desc = (StdMap.index ks.keyspace_desc cf []).2 := by
  cases c with
  | path p =>
    refine ⟨p.column_family, ?_⟩
    simp only [validate, Keyspace.validateColumnPath]
    repeat' split
    all_goals rfl
  | parent p =>
    refine ⟨p.column_family, ?_⟩
    simp only [validate, Keyspace.validateColumnParent]
    repeat' split
    all_goals rfl
  | superPath p =>
    refine ⟨p.column_family, ?_⟩
    simp only [validate, Keyspace.validateSuperColumnPath]
    repeat' split
    all_goals rfl

/-- A family without a declared type keeps being without one through any
sequence of validator calls. -/
theorem declaredType_validateAll_none (cf : String) (calls : List ValidationCall) :
    ∀ ks : Keyspace σ, declaredType ks.keyspace_desc cf = none →
      declaredType (validateAll ks calls).keyspace_desc cf = none := by
  induction calls with
  | nil => intro ks h; exact h
  | cons c cs ih =>
    intro ks h
    apply ih
    obtain ⟨cf', hd⟩ := validate_desc ks c
    rw [hd]
    unfold declaredType at h ⊢
    rw [StdMap.find_index_snd]
    by_cases hk : cf' = cf
    · subst hk
      cases hf : StdMap.find ks.keyspace_desc cf' with
      | none => simp [StdMap.find]
      | some attrs => simpa [hf] using h
    · simpa [hk] using h

end Validators

/-! ## Lemmas on the methods -/

section Methods

variable {σ : Type}

theorem afterValidation_error {α : Type} (w : World σ)
    (v : Except Exception Unit × Keyspace σ) (next : Keyspace σ → Outcome σ α)
    (e : Exception) (h : v.1 = .error e) :
    Keyspace.afterValidation w v next = { result := .error e, ks := v.2, world := w } := by
  unfold Keyspace.afterValidation
  rw [h]

theorem afterValidation_ok {α : Type} (w : World σ)
    (v : Except Exception Unit × Keyspace σ) (next : Keyspace σ → Outcome σ α)
    (h : v.1 = .ok ()) : Keyspace.afterValidation w v next = next v.2 := by
  unfold Keyspace.afterValidation
  rw [h]

/-- The validator leaves the client, the name and the level of the object as
they were. -/
theorem validateColumnPath_frame (ks : Keyspace σ) (p : ColumnPath) :
    (ks.validateColumnPath p).2.client = ks.client ∧
    (ks.validateColumnPath p).2.name = ks.name ∧
    (ks.validateColumnPath p).2.level = ks.level := by
  simp only [Keyspace.validateColumnPath]
  repeat' split
  all_goals exact ⟨rfl, rfl, rfl⟩

theorem sliceLoop_foldl (l : List ColumnOrSuperColumn) (acc : List Column) :
    l.foldl (fun result it => if it.column.name ≠ "" then result ++ [it.column] else result)
        acc =
      acc ++ (l.filter fun c => decide (c.column.name ≠ "")).map fun c => c.column := by
  induction l generalizing acc with
  | nil => simp
  | cons c cs ih =>
    rw [List.foldl_cons, ih]
    by_cases hc : c.column.name = "" <;> simp [hc]

end Methods

/-! ## Validation policy -/

section Policy

variable {σ : Type}

/-- C1: on a column family whose schema entry declares `"Type"` =
`"Standard"`, `validateColumnPath` throws `InvalidRequestException` for every
path with an empty column name and returns for every path with a non-empty
column name, whatever the super-column name is. -/
theorem validateColumnPath_standard (ks : Keyspace σ) (col_path : ColumnPath)
    (hstd : declaredType ks.keyspace_desc col_path.column_family = some "Standard") :
    (ks.validateColumnPath col_path).1 =
      if col_path.column = "" then .error .InvalidRequestException else .ok () := by
  rw [validateColumnPath_result]
  unfold specValidPath
  rw [hstd]
  by_cases hc : col_path.column = "" <;> simp [hc]

theorem validateColumnPath_standard_witness :
    declaredType (sampleKeyspace schemaStandard (plainEntry "name" "v1") [] []).keyspace_desc
        (ColumnPath.mk "CF1" "anything" "name" true true).column_family = some "Standard" ∧
    ((sampleKeyspace schemaStandard (plainEntry "name" "v1") [] []).validateColumnPath
        (ColumnPath.mk "CF1" "anything" "name" true true)).1 =
      if (ColumnPath.mk "CF1" "anything" "name" true true).column = "" then
        .error .InvalidRequestException
      else .ok () :=
  ⟨by decide,
   validateColumnPath_standard (sampleKeyspace schemaStandard (plainEntry "name" "v1") [] [])
     (ColumnPath.mk "CF1" "anything" "name" true true) (by decide)⟩

/-- C2: on a column family whose schema entry declares `"Type"` = `"Super"`,
`validateColumnPath` and `validateColumnParent` return exactly when the
super-column name is non-empty and throw `InvalidRequestException` when it is
empty, whatever the column name is. -/
theorem validate_super (ks : Keyspace σ) (col_path : ColumnPath) (col_parent : ColumnParent)
    (hpath : declaredType ks.keyspace_desc col_path.column_family = some "Super")
    (hparent : declaredType ks.keyspace_desc col_parent.column_family = some "Super") :
    (ks.validateColumnPath col_path).1 =
        (if col_path.super_column = "" then .error .InvalidRequestException else .ok ()) ∧
    (ks.validateColumnParent col_parent).1 =
        (if col_parent.super_column = "" then .error .InvalidRequestException else .ok ()) := by
  constructor
  · rw [validateColumnPath_result]
    unfold specValidPath
    rw [hpath]
    by_cases hc : col_path.super_column = "" <;> simp [hc]
  · rw [validateColumnParent_result]
    unfold specValidParent
    rw [hparent]
    by_cases hc : col_parent.super_column = "" <;> simp [hc]

theorem validate_super_witness :
    (declaredType (sampleKeyspace schemaSuper (plainEntry "name" "v1") [] []).keyspace_desc
        (ColumnPath.mk "SCF1" "sc1" "" true false).column_family = some "Super" ∧
     declaredType (sampleKeyspace schemaSuper (plainEntry "name" "v1") [] []).keyspace_desc
        (ColumnParent.mk "SCF1" "" false).column_family = some "Super") ∧
    ((sampleKeyspace schemaSuper (plainEntry "name" "v1") [] []).validateColumnPath
        (ColumnPath.mk "SCF1" "sc1" "" true false)).1 =
        (if (ColumnPath.mk "SCF1" "sc1" "" true false).super_column = "" then
          .error .InvalidRequestException else .ok ()) ∧
    ((sampleKeyspace schemaSuper (plainEntry "name" "v1") [] []).validateColumnParent
        (ColumnParent.mk "SCF1" "" false)).1 =
        (if (ColumnParent.mk "SCF1" "" false).super_column = "" then
          .error .InvalidRequestException else .ok ()) :=
  ⟨⟨by decide, by decide⟩,
   validate_super (sampleKeyspace schemaSuper (plainEntry "name" "v1") [] [])
     (ColumnPath.mk "SCF1" "sc1" "" true false) (ColumnParent.mk "SCF1" "" false)
     (by decide) (by decide)⟩

/-- C3: when a column-family name has no entry in the schema description,
`validateColumnPath`, `validateColumnParent` and `validateSuperColumnPath`
each throw `InvalidRequestException` for every path or parent naming that
family, whatever its column and super-column names are; this still holds on
the object left by any earlier sequence of validator calls (on that family or
on others). -/
theorem validate_unknown_family (ks : Keyspace σ) (cf : String)
    (hunknown : StdMap.find ks.keyspace_desc cf = none) (earlier : List ValidationCall)
    (super_column column : String) (isset_super_column isset_column : Bool) :
    ((validateAll ks earlier).validateColumnPath
        (ColumnPath.mk cf super_column column isset_super_column isset_column)).1 =
      .error .InvalidRequestException ∧
    ((validateAll ks earlier).validateColumnParent
        (ColumnParent.mk cf super_column isset_super_column)).1 =
      .error .InvalidRequestException ∧
    ((validateAll ks earlier).validateSuperColumnPath
        (ColumnPath.mk cf super_column column isset_super_column isset_column)).1 =
      .error .InvalidRequestException := by
  have hnone : declaredType (validateAll ks earlier).keyspace_desc cf = none :=
    declaredType_validateAll_none cf earlier ks (by simp [declaredType, hunknown])
  refine ⟨?_, ?_, ?_⟩
  · rw [validateColumnPath_result]
    simp [specValidPath, hnone]
  · rw [validateColumnParent_result]
    simp [specValidParent, hnone]
  · rw [validateSuperColumnPath_result]
    simp [hnone]

theorem validate_unknown_family_witness :
    StdMap.find (sampleKeyspace schemaStandard (plainEntry "name" "v1") [] []).keyspace_desc
        "CF2" = none ∧
    (((validateAll (sampleKeyspace schemaStandard (plainEntry "name" "v1") [] [])
          [.path (ColumnPath.mk "CF2" "" "c" false true)]).validateColumnPath
        (ColumnPath.mk "CF2" "sc" "c" true true)).1 = .error .InvalidRequestException ∧
     ((validateAll (sampleKeyspace schemaStandard (plainEntry "name" "v1") [] [])
          [.path (ColumnPath.mk "CF2" "" "c" false true)]).validateColumnParent
        (ColumnParent.mk "CF2" "sc" true)).1 = .error .InvalidRequestException ∧
     ((validateAll (sampleKeyspace schemaStandard (plainEntry "name" "v1") [] [])
          [.path (ColumnPath.mk "CF2" "" "c" false true)]).validateSuperColumnPath
        (ColumnPath.mk "CF2" "sc" "c" true true)).1 = .error .InvalidRequestException) :=
  ⟨by decide,
   validate_unknown_family (sampleKeyspace schemaStandard (plainEntry "name" "v1") [] [])
     "CF2" (by decide) [.path (ColumnPath.mk "CF2" "" "c" false true)] "sc" "c" true true⟩

end Policy

/-! ## Reads -/

section Reads

variable {σ : Type}

/-- C5: when the remote `get_slice` call returns the mixed list `ret_cosc`,
`getSliceNames` returns the `column` members of exactly those entries whose
`column.name` is not empty, in their original order: the list filtered on a
non-empty column name and projected to the column. -/
theorem getSliceNames_filters (ks : Keyspace σ) (w : World σ) (key : String)
    (col_parent : ColumnParent) (pred : SlicePredicate)
    (ret_cosc : List ColumnOrSuperColumn)
    (hslice : (ks.client.get_slice w.remote ks.name key col_parent
        { pred with isset_column_names := true } ks.level).1 = .ok ret_cosc) :
    (ks.getSliceNames w key col_parent pred).result =
      .ok ((ret_cosc.filter fun c => decide (c.column.name ≠ "")).map fun c => c.column) := by
  unfold Keyspace.getSliceNames
  simp only [hslice, Keyspace.sliceLoop, sliceLoop_foldl, List.nil_append]

theorem getSliceNames_filters_witness :
    ((sampleKeyspace schemaStandard (plainEntry "name" "v1")
        [plainEntry "a" "1", superEntry "s", plainEntry "b" "2"] []).client.get_slice
        freshWorld.remote
        (sampleKeyspace schemaStandard (plainEntry "name" "v1")
          [plainEntry "a" "1", superEntry "s", plainEntry "b" "2"] []).name
        "k1" (ColumnParent.mk "CF1" "" false)
        { (SlicePredicate.mk ["a", "b"] "" "" false 0 false false) with
          isset_column_names := true }
        (sampleKeyspace schemaStandard (plainEntry "name" "v1")
          [plainEntry "a" "1", superEntry "s", plainEntry "b" "2"] []).level).1 =
      .ok [plainEntry "a" "1", superEntry "s", plainEntry "b" "2"] ∧
    ((sampleKeyspace schemaStandard (plainEntry "name" "v1")
        [plainEntry "a" "1", superEntry "s", plainEntry "b" "2"] []).getSliceNames
        freshWorld "k1" (ColumnParent.mk "CF1" "" false)
        (SlicePredicate.mk ["a", "b"] "" "" false 0 false false)).result =
      .ok (([plainEntry "a" "1", superEntry "s", plainEntry "b" "2"].filter
        fun c => decide (c.column.name ≠ "")).map fun c => c.column) :=
  ⟨rfl,
   getSliceNames_filters
     (sampleKeyspace schemaStandard (plainEntry "name" "v1")
       [plainEntry "a" "1", superEntry "s", plainEntry "b" "2"] [])
     freshWorld "k1" (ColumnParent.mk "CF1" "" false)
     (SlicePredicate.mk ["a", "b"] "" "" false 0 false false)
     [plainEntry "a" "1", superEntry "s", plainEntry "b" "2"] rfl⟩

/-- C6: when the path `getColumn` builds passes `validateColumnPath` and the
remote `get` call answers with `cosc`, `getColumn` throws
`InvalidRequestException` if `cosc.column.name` is empty and otherwise returns
`cosc.column` unchanged. -/
theorem getColumn_response (ks : Keyspace σ) (w : World σ)
    (key column_family super_column_name column_name : String) (cosc : ColumnOrSuperColumn)
    (hvalid : (ks.validateColumnPath
        (Keyspace.getColumnPath column_family super_column_name column_name)).1 = .ok ())
    (hget : (ks.client.get w.remote ks.name key
        (Keyspace.getColumnPath column_family super_column_name column_name) ks.level).1 =
        .ok cosc) :
    (ks.getColumn w key column_family super_column_name column_name).result =
      if cosc.column.name = "" then .error .InvalidRequestException else .ok cosc.column := by
  obtain ⟨hc, hn, hl⟩ := validateColumnPath_frame ks
    (Keyspace.getColumnPath column_family super_column_name column_name)
  unfold Keyspace.getColumn
  simp only []
  rw [afterValidation_ok _ _ _ hvalid]
  simp only [hc, hn, hl, hget]
  by_cases hname : cosc.column.name = "" <;> simp [hname]

theorem getColumn_response_witness :
    (((sampleKeyspace schemaStandard (plainEntry "name" "v1") [] []).validateColumnPath
        (Keyspace.getColumnPath "CF1" "" "name")).1 = .ok () ∧
     ((sampleKeyspace schemaStandard (plainEntry "name" "v1") [] []).client.get
        freshWorld.remote (sampleKeyspace schemaStandard (plainEntry "name" "v1") [] []).name
        "k1" (Keyspace.getColumnPath "CF1" "" "name")
        (sampleKeyspace schemaStandard (plainEntry "name" "v1") [] []).level).1 =
        .ok (plainEntry "name" "v1")) ∧
    ((sampleKeyspace schemaStandard (plainEntry "name" "v1") [] []).getColumn freshWorld
        "k1" "CF1" "" "name").result =
      if (plainEntry "name" "v1").column.name = "" then .error .InvalidRequestException
      else .ok (plainEntry "name" "v1").column :=
  ⟨⟨rfl, rfl⟩,
   getColumn_response (sampleKeyspace schemaStandard (plainEntry "name" "v1") [] [])
     freshWorld "k1" "CF1" "" "name" (plainEntry "name" "v1") rfl rfl⟩

/-- C10: on every column family whose declared `"Type"` is not `"Super"`
(declared otherwise, without the attribute, or without an entry),
`getSuperColumn` throws `InvalidRequestException` for every key and every
super-column name and makes no remote call: the world is left as it was. -/
theorem getSuperColumn_requires_super (ks : Keyspace σ) (w : World σ)
    (key column_family super_column_name : String)
    (hnot : declaredType ks.keyspace_desc column_family ≠ some "Super") :
    (ks.getSuperColumn w key column_family super_column_name).result =
      .error .InvalidRequestException ∧
    (ks.getSuperColumn w key column_family super_column_name).world = w := by
  have hrej : (ks.validateSuperColumnPath
      (Keyspace.getSuperColumnPath column_family super_column_name)).1 =
      .error .InvalidRequestException := by
    rw [validateSuperColumnPath_result]
    simp [Keyspace.getSuperColumnPath, hnot]
  unfold Keyspace.getSuperColumn
  simp only []
  rw [afterValidation_error _ _ _ _ hrej]
  exact ⟨rfl, rfl⟩

theorem getSuperColumn_requires_super_witness :
    declaredType (sampleKeyspace schemaStandard (superEntry "sc1") [] []).keyspace_desc "CF1" ≠
      some "Super" ∧
    ((sampleKeyspace schemaStandard (superEntry "sc1") [] []).getSuperColumn freshWorld
        "k1" "CF1" "sc1").result = .error .InvalidRequestException ∧
    ((sampleKeyspace schemaStandard (superEntry "sc1") [] []).getSuperColumn freshWorld
        "k1" "CF1" "sc1").world = freshWorld :=
  ⟨by decide,
   getSuperColumn_requires_super (sampleKeyspace schemaStandard (superEntry "sc1") [] [])
     freshWorld "k1" "CF1" "sc1" (by decide)⟩

end Reads

/-! ## Validation before the remote call -/

section Guard

variable {σ : Type}

theorem validateColumnPath_rejects (ks : Keyspace σ) (p : ColumnPath)
    (h : specValidPath ks.keyspace_desc p = false) :
    (ks.validateColumnPath p).1 = .error .InvalidRequestException := by
  rw [validateColumnPath_result, h]
  rfl

theorem validateColumnParent_rejects (ks : Keyspace σ) (p : ColumnParent)
    (h : specValidParent ks.keyspace_desc p = false) :
    (ks.validateColumnParent p).1 = .error .InvalidRequestException := by
  rw [validateColumnParent_result, h]
  rfl

/-- On the path `getSuperColumn` builds (its column name is empty), the
super-column validator rejects whatever the path policy rejects. -/
theorem validateSuperColumnPath_rejects (ks : Keyspace σ) (cf sc : String)
    (h : specValidPath ks.keyspace_desc (Keyspace.getSuperColumnPath cf sc) = false) :
    (ks.validateSuperColumnPath (Keyspace.getSuperColumnPath cf sc)).1 =
      .error .InvalidRequestException := by
  rw [validateSuperColumnPath_result]
  have hcf : (Keyspace.getSuperColumnPath cf sc).column_family = cf := rfl
  have hsc : (Keyspace.getSuperColumnPath cf sc).super_column = sc := rfl
  unfold specValidPath at h
  rw [hcf, hsc] at h ⊢
  cases hty : declaredType ks.keyspace_desc cf with
  | none => simp
  | some t =>
    by_cases ht : t = "Super"
    · subst ht
      rw [hty] at h
      have hsc' : sc = "" := by simpa using h
      simp [hsc']
    · simp [ht]

/-- C7 (amended): `insertColumn`, `remove` (both overloads), `getColumn` and
`getSuperColumn` validate before the remote call: when the parent or path
given or built is invalid under the validation policy, they throw
`InvalidRequestException` and the world is left as it was (no remote call).
`getSliceNames`, `getSliceRange`, `getRangeSlice`, `getSuperRangeSlice` and
`getCount` do not validate: they make their one remote call with the parent
as given. -/
theorem validation_guards_remote_call (ks : Keyspace σ) (w : World σ) (tv : Timeval)
    (key column_family super_column_name column_name value : String) (ttl : Int)
    (col_path : ColumnPath) (col_parent : ColumnParent) (pred : SlicePredicate)
    (start finish : String) (row_count : Int) :
    (specValidParent ks.keyspace_desc
        (Keyspace.insertColumnParent column_family super_column_name) = false →
      (ks.insertColumn w tv key column_family super_column_name column_name value ttl).result =
        .error .InvalidRequestException ∧
      (ks.insertColumn w tv key column_family super_column_name column_name value ttl).world =
        w) ∧
    (specValidPath ks.keyspace_desc col_path = false →
      (ks.remove w tv key col_path).result = .error .InvalidRequestException ∧
      (ks.remove w tv key col_path).world = w) ∧
    (specValidPath ks.keyspace_desc
        (Keyspace.removePath column_family super_column_name column_name) = false →
      (ks.removeStr w tv key column_family super_column_name column_name).result =
        .error .InvalidRequestException ∧
      (ks.removeStr w tv key column_family super_column_name column_name).world = w) ∧
    (specValidPath ks.keyspace_desc
        (Keyspace.getColumnPath column_family super_column_name column_name) = false →
      (ks.getColumn w key column_family super_column_name column_name).result =
        .error .InvalidRequestException ∧
      (ks.getColumn w key column_family super_column_name column_name).world = w) ∧
    (specValidPath ks.keyspace_desc
        (Keyspace.getSuperColumnPath column_family super_column_name) = false →
      (ks.getSuperColumn w key column_family super_column_name).result =
        .error .InvalidRequestException ∧
      (ks.getSuperColumn w key column_family super_column_name).world = w) ∧
    (ks.getSliceNames w key col_parent pred).world.calls =
      w.calls ++ [.get_slice ks.name key col_parent
        { pred with isset_column_names := true } ks.level] ∧
    (ks.getSliceRange w key col_parent pred).world.calls =
      w.calls ++ [.get_slice ks.name key col_parent
        { pred with isset_slice_range := true } ks.level] ∧
    (ks.getRangeSlice w col_parent pred start finish row_count).world.calls =
      w.calls ++ [.get_range_slice ks.name col_parent pred start finish row_count ks.level] ∧
    (ks.getSuperRangeSlice w col_parent pred start finish row_count).world.calls =
      w.calls ++ [.get_range_slice ks.name col_parent pred start finish row_count ks.level] ∧
    (ks.getCount w key col_parent).world.calls =
      w.calls ++ [.get_count ks.name key col_parent ks.level] := by
  refine ⟨?_, ?_, ?_, ?_, ?_, ?_, ?_, ?_, ?_, rfl⟩
  · intro h
    unfold Keyspace.insertColumn
    simp only []
    rw [afterValidation_error _ _ _ _ (validateColumnParent_rejects ks _ h)]
    exact ⟨rfl, rfl⟩
  · intro h
    unfold Keyspace.remove
    rw [afterValidation_error _ _ _ _ (validateColumnPath_rejects ks _ h)]
    exact ⟨rfl, rfl⟩
  · intro h
    unfold Keyspace.removeStr Keyspace.remove
    rw [afterValidation_error _ _ _ _ (validateColumnPath_rejects ks _ h)]
    exact ⟨rfl, rfl⟩
  · intro h
    unfold Keyspace.getColumn
    simp only []
    rw [afterValidation_error _ _ _ _ (validateColumnPath_rejects ks _ h)]
    exact ⟨rfl, rfl⟩
  · intro h
    unfold Keyspace.getSuperColumn
    simp only []
    rw [afterValidation_error _ _ _ _ (validateSuperColumnPath_rejects ks _ _ h)]
    exact ⟨rfl, rfl⟩
  · unfold Keyspace.getSliceNames
    simp only []
    split <;> rfl
  · unfold Keyspace.getSliceRange
    simp only []
    split <;> rfl
  · unfold Keyspace.getRangeSlice
    simp only []
    split <;> rfl
  · unfold Keyspace.getSuperRangeSlice
    simp only []
    split <;> rfl

end Guard

theorem validation_guards_remote_call_witness :
    (specValidParent (sampleKeyspace schemaStandard (plainEntry "name" "v1") [] []).keyspace_desc
        (Keyspace.insertColumnParent "CF2" "") = false ∧
      ((sampleKeyspace schemaStandard (plainEntry "name" "v1") [] []).insertColumn freshWorld
          (Timeval.mk 1 2) "k1" "CF2" "" "name" "v1" 0).result =
        .error .InvalidRequestException ∧
      ((sampleKeyspace schemaStandard (plainEntry "name" "v1") [] []).insertColumn freshWorld
          (Timeval.mk 1 2) "k1" "CF2" "" "name" "v1" 0).world = freshWorld) ∧
    (specValidPath (sampleKeyspace schemaStandard (plainEntry "name" "v1") [] []).keyspace_desc
        (ColumnPath.mk "CF1" "sc" "" true false) = false ∧
      ((sampleKeyspace schemaStandard (plainEntry "name" "v1") [] []).remove freshWorld
          (Timeval.mk 1 2) "k1" (ColumnPath.mk "CF1" "sc" "" true false)).result =
        .error .InvalidRequestException ∧
      ((sampleKeyspace schemaStandard (plainEntry "name" "v1") [] []).remove freshWorld
          (Timeval.mk 1 2) "k1" (ColumnPath.mk "CF1" "sc" "" true false)).world =
        freshWorld) ∧
    (specValidPath (sampleKeyspace schemaStandard (plainEntry "name" "v1") [] []).keyspace_desc
        (Keyspace.removePath "CF2" "" "name") = false ∧
      ((sampleKeyspace schemaStandard (plainEntry "name" "v1") [] []).removeStr freshWorld
          (Timeval.mk 1 2) "k1" "CF2" "" "name").result = .error .InvalidRequestException ∧
      ((sampleKeyspace schemaStandard (plainEntry "name" "v1") [] []).removeStr freshWorld
          (Timeval.mk 1 2) "k1" "CF2" "" "name").world = freshWorld) ∧
    (specValidPath (sampleKeyspace schemaStandard (plainEntry "name" "v1") [] []).keyspace_desc
        (Keyspace.getColumnPath "CF2" "" "name") = false ∧
      ((sampleKeyspace schemaStandard (plainEntry "name" "v1") [] []).getColumn freshWorld
          "k1" "CF2" "" "name").result = .error .InvalidRequestException ∧
      ((sampleKeyspace schemaStandard (plainEntry "name" "v1") [] []).getColumn freshWorld
          "k1" "CF2" "" "name").world = freshWorld) ∧
    (specValidPath (sampleKeyspace schemaStandard (plainEntry "name" "v1") [] []).keyspace_desc
        (Keyspace.getSuperColumnPath "CF2" "") = false ∧
      ((sampleKeyspace schemaStandard (plainEntry "name" "v1") [] []).getSuperColumn freshWorld
          "k1" "CF2" "").result = .error .InvalidRequestException ∧
      ((sampleKeyspace schemaStandard (plainEntry "name" "v1") [] []).getSuperColumn freshWorld
          "k1" "CF2" "").world = freshWorld) :=
  have t := validation_guards_remote_call
    (sampleKeyspace schemaStandard (plainEntry "name" "v1") [] []) freshWorld (Timeval.mk 1 2)
    "k1" "CF2" "" "name" "v1" 0 (ColumnPath.mk "CF1" "sc" "" true false)
    (ColumnParent.mk "CF2" "" false) (SlicePredicate.mk [] "" "" false 0 false false) "" "" 10
  ⟨⟨by decide, t.1 (by decide)⟩, ⟨by decide, t.2.1 (by decide)⟩,
   ⟨by decide, t.2.2.1 (by decide)⟩, ⟨by decide, t.2.2.2.1 (by decide)⟩,
   ⟨by decide, t.2.2.2.2.1 (by decide)⟩⟩

/-- C7 (as stated) fails: on the schema with the single Standard family
`CF1`, the parent naming the unknown family `CF2` is invalid
(`validateColumnParent` throws), yet `getCount`, `getSliceNames`,
`getSliceRange`, `getRangeSlice` and `getSuperRangeSlice` each return the
remote answer after calling the remote client with that parent. -/
theorem slice_and_count_call_remote_unvalidated :
    ((sampleKeyspace schemaStandard (plainEntry "name" "v1") [] []).validateColumnParent
        (ColumnParent.mk "CF2" "" false)).1 = .error .InvalidRequestException ∧
    ((sampleKeyspace schemaStandard (plainEntry "name" "v1") [] []).getCount freshWorld "k1"
        (ColumnParent.mk "CF2" "" false)).result = .ok 0 ∧
    ((sampleKeyspace schemaStandard (plainEntry "name" "v1") [] []).getCount freshWorld "k1"
        (ColumnParent.mk "CF2" "" false)).world.calls =
      [.get_count "ks" "k1" (ColumnParent.mk "CF2" "" false) (ConsistencyLevel.mk 1)] ∧
    ((sampleKeyspace schemaStandard (plainEntry "name" "v1") [] []).getSliceNames freshWorld
        "k1" (ColumnParent.mk "CF2" "" false)
        (SlicePredicate.mk ["a"] "" "" false 0 false false)).world.calls =
      [.get_slice "ks" "k1" (ColumnParent.mk "CF2" "" false)
        (SlicePredicate.mk ["a"] "" "" false 0 true false) (ConsistencyLevel.mk 1)] ∧
    ((sampleKeyspace schemaStandard (plainEntry "name" "v1") [] []).getSliceRange freshWorld
        "k1" (ColumnParent.mk "CF2" "" false)
        (SlicePredicate.mk [] "a" "z" false 10 false false)).world.calls =
      [.get_slice "ks" "k1" (ColumnParent.mk "CF2" "" false)
        (SlicePredicate.mk [] "a" "z" false 10 false true) (ConsistencyLevel.mk 1)] ∧
    ((sampleKeyspace schemaStandard (plainEntry "name" "v1") [] []).getRangeSlice freshWorld
        (ColumnParent.mk "CF2" "" false) (SlicePredicate.mk [] "a" "z" false 10 false true)
        "" "" 10).world.calls =
      [.get_range_slice "ks" (ColumnParent.mk "CF2" "" false)
        (SlicePredicate.mk [] "a" "z" false 10 false true) "" "" 10 (ConsistencyLevel.mk 1)] ∧
    ((sampleKeyspace schemaStandard (plainEntry "name" "v1") [] []).getSuperRangeSlice
        freshWorld (ColumnParent.mk "CF2" "" false)
        (SlicePredicate.mk [] "a" "z" false 10 false true) "" "" 10).world.calls =
      [.get_range_slice "ks" (ColumnParent.mk "CF2" "" false)
        (SlicePredicate.mk [] "a" "z" false 10 false true) "" "" 10 (ConsistencyLevel.mk 1)] :=
  ⟨rfl, rfl, rfl, rfl, rfl, rfl, rfl⟩

/-! ## Where the code leaves the specification -/

/-- What `getColumnList` returns: as many value-initialised columns as the
input has entries, followed by the `column` member of every entry (plain or
not). -/
theorem getColumnList_eq (cols : List ColumnOrSuperColumn) :
    Keyspace.getColumnList cols =
      List.replicate cols.length Column.default ++ cols.map fun c => c.column := by
  unfold Keyspace.getColumnList
  generalize List.replicate cols.length Column.default = acc
  induction cols generalizing acc with
  | nil => simp
  | cons c cs ih => simp [List.foldl_cons, ih]

/-- C4 at a failing input: the remote call returns the single row `k1` whose
result list is the one plain column `c1`.  `getRangeSlice` maps `k1` to a
value-initialised column followed by `c1`, not to the list `[c1]` of that
row's plain columns. -/
theorem getRangeSlice_adds_default_columns :
    ((sampleKeyspace schemaStandard (plainEntry "name" "v1") []
        [KeySlice.mk "k1" [plainEntry "c1" "v1"]]).getRangeSlice freshWorld
        (ColumnParent.mk "CF1" "" false) (SlicePredicate.mk [] "" "" false 100 false true)
        "" "" 10).result =
      .ok [("k1", [Column.mk "" "" 0 0, Column.mk "c1" "v1" 1 0])] ∧
    [("k1", [Column.mk "" "" 0 0, Column.mk "c1" "v1" 1 0])] ≠
      [("k1", ([plainEntry "c1" "v1"].filter fun c => decide (c.column.name ≠ "")).map
        fun c => c.column)] :=
  ⟨rfl, by decide⟩

/-- C8 at a failing input: the keyspace is constructed with the description
holding the single family `CF1`; `validateColumnPath` on a path naming `CF2`
throws, and afterwards `getDescription` returns a mapping with the additional
key `CF2` (mapped to no attributes), not the mapping supplied at
construction. -/
theorem validateColumnPath_extends_description :
    (sampleKeyspace schemaStandard (plainEntry "name" "v1") [] []).getDescription =
      [("CF1", [("Type", "Standard")])] ∧
    ((sampleKeyspace schemaStandard (plainEntry "name" "v1") [] []).validateColumnPath
        (ColumnPath.mk "CF2" "" "name" false true)).1 = .error .InvalidRequestException ∧
    ((sampleKeyspace schemaStandard (plainEntry "name" "v1") [] []).validateColumnPath
        (ColumnPath.mk "CF2" "" "name" false true)).2.getDescription =
      [("CF1", [("Type", "Standard")]), ("CF2", [])] ∧
    StdMap.keys ((sampleKeyspace schemaStandard (plainEntry "name" "v1") [] []).validateColumnPath
        (ColumnPath.mk "CF2" "" "name" false true)).2.getDescription ≠
      StdMap.keys (sampleKeyspace schemaStandard (plainEntry "name" "v1") [] []).getDescription :=
  ⟨rfl, rfl, rfl, by decide⟩

/-- C9 at a failing input: `SCF1` is declared `"Super"` and the super-column
name `sc1` is not empty.  The path built by `remove("k1", "SCF1", "sc1", "")`
carries `sc1` in its column name and an empty super-column name;
`removeSuperColumn` throws `InvalidRequestException` and makes no remote
call. -/
theorem removeSuperColumn_super_rejected :
    declaredType schemaSuper "SCF1" = some "Super" ∧
    Keyspace.removePath "SCF1" "sc1" "" = ColumnPath.mk "SCF1" "" "sc1" true false ∧
    ((sampleKeyspace schemaSuper (plainEntry "name" "v1") [] []).removeSuperColumn freshWorld
        (Timeval.mk 1 2) "k1" "SCF1" "sc1").result = .error .InvalidRequestException ∧
    ((sampleKeyspace schemaSuper (plainEntry "name" "v1") [] []).removeSuperColumn freshWorld
        (Timeval.mk 1 2) "k1" "SCF1" "sc1").world.calls = [] :=
  ⟨by decide, by decide, rfl, rfl⟩

end libcassandra
